import Mathlib

/-!
Shallow embedding of the analytics query layer of the kismat-analytics
repository (src/server/api/routers/analytics.ts) over a list-based relational
store (src/server/db/schema.ts), together with proofs of the specified
properties of the derived metrics.

Timestamps are modelled as integer milliseconds; SQL DATE() and
TO_CHAR(..., YYYY-MM) bucketing are modelled by fixed integer-division
bucket functions (the claims are independent of the concrete calendar map).
JS floating-point ratio arithmetic is idealized over the rationals, and
Number.prototype.toFixed(2) is modelled exactly (round half away from zero
at two decimals).
-/

/-- JS Math-style rounding used by toFixed on a nonnegative magnitude:
the integer n minimizing the distance to q, ties to the larger n. -/
def jsRound (q : ℚ) : Int := ⌊q + 1 / 2⌋

/-- Two-digit zero padding for the fractional part of a fixed-point print. -/
def pad2 (n : Nat) : String := if n < 10 then "0" ++ toString n else toString n

/-- toFixed(2) on a nonnegative magnitude. -/
def toFixed2mag (q : ℚ) : String :=
  toString ((jsRound (100 * q)).toNat / 100) ++ "." ++ pad2 ((jsRound (100 * q)).toNat % 100)

/-- Model of JS Number.prototype.toFixed(2). -/
def toFixed2 (q : ℚ) : String :=
  if q < 0 then "-" ++ toFixed2mag (-q) else toFixed2mag q

/-- SQL LEFT JOIN row multiplicity against one outer row: the matching inner
rows, or a single NULL row when none match. -/
def leftJoin {α : Type} : List α → List (Option α)
  | [] => [none]
  | x :: xs => (x :: xs).map some

/-- SQL GROUP BY over a list: one group per distinct key, carrying the rows
of that key. -/
def groupBy {α κ : Type} [DecidableEq κ] (key : α → κ) (l : List α) : List (κ × List α) :=
  ((l.map key).dedup).map (fun k => (k, l.filter (fun x => decide (key x = k))))

/-- Insert into a sorted list: model of SQL ORDER BY placement. -/
def insertBy {α : Type} (le : α → α → Bool) (x : α) : List α → List α
  | [] => [x]
  | y :: ys => if le x y then x :: y :: ys else y :: insertBy le x ys

/-- Insertion sort: model of SQL ORDER BY. -/
def sortBy {α : Type} (le : α → α → Bool) : List α → List α
  | [] => []
  | x :: xs => insertBy le x (sortBy le xs)

/-- Day bucket of a timestamp: shallow model of SQL DATE(createdAt). -/
def dateOf (t : Int) : Int := t / 86400000

/-- Month bucket of a timestamp: shallow model of TO_CHAR(createdAt, YYYY-MM);
ascending buckets correspond to ascending year-month strings. -/
def monthOf (t : Int) : Int := t / 2592000000

/-! ### Data model (src/server/db/schema.ts) -/

structure User where
  id : String
  name : Option String
  email : String
  deriving DecidableEq

structure Account where
  userId : String
  provider : String
  deriving DecidableEq

structure MessageLog where
  id : Int
  userId : String
  createdAt : Int
  deriving DecidableEq

structure RequestLog where
  id : Int
  userId : String
  action : String
  statusCode : Int
  success : Bool
  error : Option String
  createdAt : Int
  deriving DecidableEq

structure UserCredit where
  userId : String
  balance : Int
  deriving DecidableEq

structure PaymentIntent where
  id : Int
  userId : String
  tier : String
  creditsToGrant : Int
  amountCents : Int
  status : String
  providerPaymentId : Option String
  createdAt : Int
  completedAt : Option Int
  deriving DecidableEq

structure PaymentRecord where
  id : Int
  userId : String
  providerPaymentId : String
  status : String
  creditsGranted : Int
  amountCents : Int
  paymentIntentId : Option Int
  createdAt : Int
  deriving DecidableEq

structure DB where
  users : List User
  accounts : List Account
  messageLogs : List MessageLog
  requestLogs : List RequestLog
  userCredits : List UserCredit
  paymentIntents : List PaymentIntent
  paymentRecords : List PaymentRecord
  deriving DecidableEq

/-- Schema invariants used by the segmentation proofs: primary keys are
unique (users.id, paymentRecords.id) and userCredits.userId is unique. -/
def DB.WellFormed (db : DB) : Prop :=
  (db.users.map (fun u => u.id)).Nodup ∧
  (db.userCredits.map (fun c => c.userId)).Nodup ∧
  (db.paymentRecords.map (fun p => p.id)).Nodup

instance (db : DB) : Decidable db.WellFormed := by
  unfold DB.WellFormed
  infer_instance

/-! ### Period resolution (getDateRange) -/

inductive Period where
  | p7d
  | p30d
  | p90d
  | p1y
  deriving DecidableEq

/-- The daysBack lookup map inside getDateRange. -/
def daysBack : Period → Int
  | .p7d => 7
  | .p30d => 30
  | .p90d => 90
  | .p1y => 365

structure DateRange where
  startDate : Int
  endDate : Int
  deriving DecidableEq

/-- getDateRange: startDate = now − daysBack · 24 · 60 · 60 · 1000 ms, endDate = now. -/
def getDateRange (period : Period) (now : Int) : DateRange :=
  { startDate := now - daysBack period * 24 * 60 * 60 * 1000, endDate := now }

/-- The inclusive-inclusive interval filter gte(createdAt, startDate) AND
lte(createdAt, endDate) applied by every period-scoped query. -/
def inRange (r : DateRange) (t : Int) : Bool := decide (r.startDate ≤ t ∧ t ≤ r.endDate)

/-- C2: for every period token, getDateRange returns startDate = now minus
exactly daysBack(period) days (in milliseconds) with the map
7d↦7, 30d↦30, 90d↦90, 1y↦365, and endDate = now. -/
theorem getDateRange_period_resolution : ∀ (now : Int) (p : Period),
    (getDateRange p now).startDate = now - daysBack p * 86400000 ∧
    (getDateRange p now).endDate = now ∧
    daysBack Period.p7d = 7 ∧ daysBack Period.p30d = 30 ∧
    daysBack Period.p90d = 90 ∧ daysBack Period.p1y = 365 := by
  intro now p
  refine ⟨?_, rfl, rfl, rfl, rfl, rfl⟩
  cases p <;> norm_num [getDateRange, daysBack]

/-! ### userGrowth -/

structure SignupBucket where
  date : Int
  count : Int
  deriving DecidableEq

structure UserGrowthOut where
  dailySignups : List SignupBucket
  totalUsers : Nat
  newUsersInPeriod : Int
  growthRate : String
  deriving DecidableEq

/-- days = Math.ceil((now − startDate) / (1000·60·60·24)). -/
def elapsedDays (period : Period) (now : Int) : Int :=
  ⌈((now - (getDateRange period now).startDate : Int) : ℚ) / 86400000⌉

/-- avgDailySignups = Math.floor(totalUsers / Math.max(days, 1)). -/
def avgDailySignups (db : DB) (period : Period) (now : Int) : Int :=
  ⌊((db.users.length : ℚ) / ((max (elapsedDays period now) 1 : Int) : ℚ))⌋

/-- The userGrowth query, with the Math.random() jitter source injected as
rand (one sample per bucket index, each in [0, 1)). -/
def userGrowth (db : DB) (period : Period) (now : Int) (rand : Nat → ℚ) : UserGrowthOut :=
  let totalUsers := db.users.length
  let startDate := (getDateRange period now).startDate
  let days := elapsedDays period now
  let avg := avgDailySignups db period now
  let dailySignups := (List.range (min days 30).toNat).map (fun (i : Nat) =>
    { date := startDate + (i : Int) * 86400000,
      count := ⌊(avg : ℚ) * (4 / 5 + rand i * (2 / 5))⌋ : SignupBucket })
  let newUsers := (dailySignups.map (fun b => b.count)).sum
  { dailySignups := dailySignups,
    totalUsers := totalUsers,
    newUsersInPeriod := newUsers,
    growthRate := if totalUsers = 0 then "0"
      else toFixed2 (((newUsers : ℚ) / ((max ((totalUsers : Int) - newUsers) 1 : Int) : ℚ)) * 100) }

/-! ### userEngagement -/

structure EngagementRow where
  userId : String
  messageCount : Nat
  userName : Option String
  deriving DecidableEq

structure DAURow where
  date : Int
  activeUsers : Nat
  deriving DecidableEq

structure UserEngagementOut where
  messagesPerUser : List EngagementRow
  dailyActiveUsers : List DAURow
  avgMessagesPerUser : String
  totalActiveUsers : Nat
  deriving DecidableEq

/-- MessageLog rows inside the period interval. -/
def msgsInRange (db : DB) (r : DateRange) : List MessageLog :=
  db.messageLogs.filter (fun m => inRange r m.createdAt)

/-- messagesPerUser: MessageLog LEFT JOIN users, grouped by (userId, users.name),
ordered by count desc. -/
def userEngagementRows (db : DB) (r : DateRange) : List EngagementRow :=
  let joined := (msgsInRange db r).flatMap (fun m =>
    (leftJoin (db.users.filter (fun u => decide (u.id = m.userId)))).map (fun u => (m, u)))
  let groups := groupBy (fun x => (x.1.userId, x.2.bind (fun u => u.name))) joined
  (sortBy (fun a b => decide (b.2.length ≤ a.2.length)) groups).map (fun g =>
    { userId := g.1.1, messageCount := g.2.length, userName := g.1.2 })

/-- dailyActiveUsers: group by DATE(createdAt), count distinct userId, date asc. -/
def dailyActiveUsersRows (db : DB) (r : DateRange) : List DAURow :=
  let groups := groupBy (fun m => dateOf m.createdAt) (msgsInRange db r)
  (sortBy (fun a b => decide (a.1 ≤ b.1)) groups).map (fun g =>
    { date := g.1, activeUsers := ((g.2.map (fun m => m.userId)).dedup).length })

def userEngagement (db : DB) (period : Period) (now : Int) : UserEngagementOut :=
  let r := getDateRange period now
  let rows := userEngagementRows db r
  { messagesPerUser := rows.take 20,
    dailyActiveUsers := dailyActiveUsersRows db r,
    avgMessagesPerUser := if 0 < rows.length
      then toFixed2 ((((rows.map (fun u => u.messageCount)).sum : ℚ)) / (rows.length : ℚ))
      else "0",
    totalActiveUsers := rows.length }

/-! ### authenticationPatterns -/

structure ProviderStat where
  provider : String
  count : Nat
  percentage : String
  deriving DecidableEq

structure AuthPatternsOut where
  providerStats : List ProviderStat
  totalAccounts : Nat
  deriving DecidableEq

/-- Account rows grouped by provider with counts, ordered by count desc. -/
def providerGroups (db : DB) : List (String × Nat) :=
  let groups := groupBy (fun a => a.provider) db.accounts
  (sortBy (fun a b => decide (b.2.length ≤ a.2.length)) groups).map (fun g => (g.1, g.2.length))

/-- totalAccounts = providerStats.reduce((sum, provider) => sum + provider.count, 0). -/
def totalAccountsOf (db : DB) : Nat := ((providerGroups db).map (fun g => g.2)).sum

def authenticationPatterns (db : DB) : AuthPatternsOut :=
  let total := totalAccountsOf db
  { providerStats := (providerGroups db).map (fun g =>
      { provider := g.1, count := g.2,
        percentage := if 0 < total then toFixed2 (((g.2 : ℚ) / (total : ℚ)) * 100) else "0" }),
    totalAccounts := total }

/-! ### userSegmentation -/

structure SegRow where
  userId : String
  userName : Option String
  email : String
  credits : Option Int
  totalMessages : Nat
  hasPaid : Bool
  deriving DecidableEq

/-- A row of the four-table segmentation join. -/
abbrev SegJoinRow := User × Option UserCredit × Option MessageLog × Option PaymentRecord

/-- The userCredits leg of the segmentation join for one user row. -/
def creditsFor (db : DB) (u : User) : List UserCredit :=
  db.userCredits.filter (fun c => decide (c.userId = u.id))

/-- The messageLogs leg of the segmentation join for one user row
(the query applies no period filter). -/
def messagesFor (db : DB) (u : User) : List MessageLog :=
  db.messageLogs.filter (fun m => decide (m.userId = u.id))

/-- The paymentRecords leg of the segmentation join for one user row
(the query applies no status filter). -/
def paymentsFor (db : DB) (u : User) : List PaymentRecord :=
  db.paymentRecords.filter (fun p => decide (p.userId = u.id))

/-- All join rows produced by one user row. -/
def rowsFor (db : DB) (u : User) : List SegJoinRow :=
  (leftJoin (creditsFor db u)).flatMap (fun c =>
    (leftJoin (messagesFor db u)).flatMap (fun m =>
      (leftJoin (paymentsFor db u)).map (fun p => (u, c, m, p))))

/-- The joined row set of the segmentation query:
users LEFT JOIN userCredits LEFT JOIN messageLogs LEFT JOIN paymentRecords,
all joined on the user id. -/
def segJoinRows (db : DB) : List SegJoinRow :=
  db.users.flatMap (rowsFor db)

/-- The GROUP BY key (users.id, users.name, users.email, userCredits.balance,
paymentRecords.id). -/
def segKey (x : SegJoinRow) :
    String × Option String × String × Option Int × Option Int :=
  (x.1.id, x.1.name, x.1.email, x.2.1.map (fun c => c.balance), x.2.2.2.map (fun p => p.id))

/-- One SegRow per group: totalMessages = count(messageLogs.id),
hasPaid = CASE WHEN paymentRecords.id IS NOT NULL. -/
def userSegments (db : DB) : List SegRow :=
  (groupBy segKey (segJoinRows db)).map (fun g =>
    { userId := g.1.1, userName := g.1.2.1, email := g.1.2.2.1, credits := g.1.2.2.2.1,
      totalMessages := (g.2.filter (fun x => x.2.2.1.isSome)).length,
      hasPaid := g.1.2.2.2.2.isSome })

structure UserSegmentationOut where
  freeUsers : Nat
  paidUsers : Nat
  heavyUsers : Nat
  lightUsers : Nat
  segFree : List SegRow
  segPaid : List SegRow
  segHeavy : List SegRow
  segLight : List SegRow
  deriving DecidableEq

def segFreeRows (db : DB) : List SegRow := (userSegments db).filter (fun u => !u.hasPaid)

def segPaidRows (db : DB) : List SegRow := (userSegments db).filter (fun u => u.hasPaid)

def segHeavyRows (db : DB) : List SegRow :=
  (userSegments db).filter (fun u => decide (10 < u.totalMessages))

def segLightRows (db : DB) : List SegRow :=
  (userSegments db).filter (fun u => decide (u.totalMessages ≤ 10))

def userSegmentation (db : DB) : UserSegmentationOut :=
  { freeUsers := (segFreeRows db).length, paidUsers := (segPaidRows db).length,
    heavyUsers := (segHeavyRows db).length, lightUsers := (segLightRows db).length,
    segFree := (segFreeRows db).take 10, segPaid := (segPaidRows db).take 10,
    segHeavy := (segHeavyRows db).take 10, segLight := (segLightRows db).take 10 }

/-! ### conversionFunnel -/

structure ConversionRates where
  registrationToFirstMessage : String
  firstMessageToPaymentIntent : String
  paymentIntentToCompletion : String
  overallConversion : String
  deriving DecidableEq

structure ConversionFunnelOut where
  registrations : Nat
  firstMessage : Nat
  paymentIntent : Nat
  completedPayment : Nat
  conversionRates : ConversionRates
  deriving DecidableEq

/-- Distinct users with at least one message in the interval
(groupBy(messageLogs.userId) row count). -/
def firstMessageUsers (db : DB) (r : DateRange) : Nat :=
  (groupBy (fun m => m.userId) (msgsInRange db r)).length

/-- Distinct users with a PaymentIntent created in the interval. -/
def paymentIntentUsers (db : DB) (r : DateRange) : Nat :=
  (groupBy (fun i => i.userId) (db.paymentIntents.filter (fun i => inRange r i.createdAt))).length

/-- PaymentRecord rows in the interval with status succeeded. -/
def succeededInRange (db : DB) (r : DateRange) : List PaymentRecord :=
  db.paymentRecords.filter (fun p => inRange r p.createdAt && decide (p.status = "succeeded"))

/-- Distinct users with a succeeded PaymentRecord created in the interval. -/
def completedPaymentUsers (db : DB) (r : DateRange) : Nat :=
  (groupBy (fun p => p.userId) (succeededInRange db r)).length

def conversionFunnel (db : DB) (period : Period) (now : Int) : ConversionFunnelOut :=
  let r := getDateRange period now
  let regs := db.users.length
  let fmU := firstMessageUsers db r
  let piU := paymentIntentUsers db r
  let cpU := completedPaymentUsers db r
  { registrations := regs, firstMessage := fmU, paymentIntent := piU, completedPayment := cpU,
    conversionRates :=
      { registrationToFirstMessage :=
          if 0 < regs then toFixed2 (((fmU : ℚ) / (regs : ℚ)) * 100) else "0",
        firstMessageToPaymentIntent :=
          if 0 < fmU then toFixed2 (((piU : ℚ) / (fmU : ℚ)) * 100) else "0",
        paymentIntentToCompletion :=
          if 0 < piU then toFixed2 (((cpU : ℚ) / (piU : ℚ)) * 100) else "0",
        overallConversion :=
          if 0 < regs then toFixed2 (((cpU : ℚ) / (regs : ℚ)) * 100) else "0" } }

/-! ### revenueMetrics -/

structure MonthlyRevenueRow where
  month : Int
  revenue : Int
  transactions : Nat
  revenueInCurrency : String
  deriving DecidableEq

structure RevenueMetricsOut where
  monthlyRevenue : List MonthlyRevenueRow
  totalRevenue : String
  arpu : String
  uniquePayingUsers : Nat
  deriving DecidableEq

/-- Succeeded PaymentRecord rows in interval grouped by month:
(month, sum(amountCents), count), ordered ascending by month. -/
def monthlyRevenueRows (db : DB) (r : DateRange) : List (Int × Int × Nat) :=
  let groups := groupBy (fun p => monthOf p.createdAt) (succeededInRange db r)
  (sortBy (fun a b => decide (a.1 ≤ b.1)) groups).map (fun g =>
    (g.1, (g.2.map (fun p => p.amountCents)).sum, g.2.length))

/-- totalRevenue (in cents) = monthlyRevenue.reduce((sum, month) => sum + Number(month.revenue), 0). -/
def totalRevenueCents (db : DB) (r : DateRange) : Int :=
  ((monthlyRevenueRows db r).map (fun m => m.2.1)).sum

/-- uniquePayingUsers = number of groups of succeeded in-interval records by userId. -/
def uniquePayingUsersCount (db : DB) (r : DateRange) : Nat :=
  (groupBy (fun p => p.userId) (succeededInRange db r)).length

def revenueMetrics (db : DB) (period : Period) (now : Int) : RevenueMetricsOut :=
  let r := getDateRange period now
  let rows := monthlyRevenueRows db r
  let total := totalRevenueCents db r
  let payers := uniquePayingUsersCount db r
  { monthlyRevenue := rows.map (fun m =>
      -- the JS null-guard on month.revenue is unreachable: every group is
      -- nonempty, so the driver always returns a (truthy) numeric string
      { month := m.1, revenue := m.2.1, transactions := m.2.2,
        revenueInCurrency := toFixed2 ((m.2.1 : ℚ) / 100) }),
    totalRevenue := toFixed2 ((total : ℚ) / 100),
    arpu := if 0 < payers then toFixed2 (((total : ℚ) / (payers : ℚ)) / 100) else "0",
    uniquePayingUsers := payers }

/-! ### paymentAnalysis -/

structure TierStat where
  tier : String
  totalAttempts : Nat
  successful : Nat
  successRate : String
  deriving DecidableEq

structure ProcessingTimeRow where
  paymentIntentId : Int
  tier : String
  timeToComplete : Option ℚ
  deriving DecidableEq

structure PaymentAnalysisOut where
  tierStats : List TierStat
  averageProcessingTime : String
  processingTimes : List ProcessingTimeRow
  deriving DecidableEq

/-- paymentIntents (in interval) LEFT JOIN paymentRecords on
providerPaymentId; a NULL intent providerPaymentId matches nothing. -/
def tierJoinRows (db : DB) (r : DateRange) : List (PaymentIntent × Option PaymentRecord) :=
  (db.paymentIntents.filter (fun i => inRange r i.createdAt)).flatMap (fun i =>
    (leftJoin (db.paymentRecords.filter (fun p =>
      match i.providerPaymentId with
      | some pid => decide (p.providerPaymentId = pid)
      | none => false))).map (fun p => (i, p)))

/-- Per-tier stats: totalAttempts = count, successful = count of joined
succeeded records, successRate guarded by totalAttempts > 0. -/
def tierStatsRows (db : DB) (r : DateRange) : List TierStat :=
  (groupBy (fun x => x.1.tier) (tierJoinRows db r)).map (fun g =>
    let t := g.2.length
    let s := g.2.countP (fun x =>
      match x.2 with
      | some p => decide (p.status = "succeeded")
      | none => false)
    { tier := g.1, totalAttempts := t, successful := s,
      successRate := if 0 < t then toFixed2 (((s : ℚ) / (t : ℚ)) * 100) else "0" })

/-- Completed intents in interval with timeToComplete =
EXTRACT(EPOCH FROM (completedAt − createdAt)) seconds (NULL-propagating). -/
def processingTimeRows (db : DB) (r : DateRange) : List ProcessingTimeRow :=
  (db.paymentIntents.filter
      (fun i => inRange r i.createdAt && decide (i.status = "completed"))).map
    (fun i => { paymentIntentId := i.id, tier := i.tier,
                timeToComplete := i.completedAt.map (fun c => ((c - i.createdAt : Int) : ℚ) / 1000) })

def paymentAnalysis (db : DB) (period : Period) (now : Int) : PaymentAnalysisOut :=
  let r := getDateRange period now
  let pts := processingTimeRows db r
  { tierStats := tierStatsRows db r,
    averageProcessingTime := if 0 < pts.length
      then toFixed2 ((((pts.map (fun p => p.timeToComplete.getD 0)).sum) / (pts.length : ℚ)) / 60)
      else "0",
    processingTimes := pts.take 100 }

/-! ### systemHealth -/

structure ApiStat where
  action : String
  totalRequests : Nat
  successfulRequests : Nat
  avgResponseTime : ℚ
  successRate : String
  deriving DecidableEq

structure ErrorPattern where
  error : Option String
  statusCode : Int
  count : Nat
  deriving DecidableEq

structure SystemHealthOut where
  apiStats : List ApiStat
  errorPatterns : List ErrorPattern
  totalRequests : Nat
  deriving DecidableEq

/-- RequestLog rows inside the period interval. -/
def reqsInRange (db : DB) (r : DateRange) : List RequestLog :=
  db.requestLogs.filter (fun q => inRange r q.createdAt)

/-- Per-action stats (the successRate-appending map of the return statement
is fused into the row construction; it adds exactly the guarded ratio). -/
def apiStatsRows (db : DB) (r : DateRange) : List ApiStat :=
  (groupBy (fun q => q.action) (reqsInRange db r)).map (fun g =>
    let t := g.2.length
    let s := g.2.countP (fun q => q.success)
    { action := g.1, totalRequests := t, successfulRequests := s,
      avgResponseTime := ((g.2.countP (fun q => decide (q.statusCode < 400)) : ℚ)) / (t : ℚ),
      successRate := if 0 < t then toFixed2 (((s : ℚ) / (t : ℚ)) * 100) else "0" })

/-- Failed rows grouped by (error, statusCode), ordered desc by count, top 10. -/
def errorPatternRows (db : DB) (r : DateRange) : List ErrorPattern :=
  let groups := groupBy (fun q => (q.error, q.statusCode))
    ((reqsInRange db r).filter (fun q => decide (q.success = false)))
  ((sortBy (fun a b => decide (b.2.length ≤ a.2.length)) groups).map (fun g =>
    { error := g.1.1, statusCode := g.1.2, count := g.2.length })).take 10

def systemHealth (db : DB) (period : Period) (now : Int) : SystemHealthOut :=
  let r := getDateRange period now
  let stats := apiStatsRows db r
  { apiStats := stats,
    errorPatterns := errorPatternRows db r,
    totalRequests := (stats.map (fun st => st.totalRequests)).sum }

/-! ### rateLimitingImpact -/

structure DailyCountRow where
  userId : String
  date : Int
  messageCount : Nat
  deriving DecidableEq

structure RateLimitingOut where
  totalDaysWithLimitHits : Nat
  uniqueUsersAffected : Nat
  averageMessagesOnLimitDays : String
  dailyLimitHits : List DailyCountRow
  deriving DecidableEq

/-- MessageLog rows in interval grouped by (userId, DATE(createdAt)). -/
def dailyMessageCounts (db : DB) (r : DateRange) : List DailyCountRow :=
  (groupBy (fun m => (m.userId, dateOf m.createdAt)) (msgsInRange db r)).map (fun g =>
    { userId := g.1.1, date := g.1.2, messageCount := g.2.length })

/-- usersHittingLimits = dailyMessageCounts.filter(day => day.messageCount >= 5). -/
def limitHitRows (db : DB) (r : DateRange) : List DailyCountRow :=
  (dailyMessageCounts db r).filter (fun d => decide (5 ≤ d.messageCount))

def rateLimitingImpact (db : DB) (period : Period) (now : Int) : RateLimitingOut :=
  let r := getDateRange period now
  let hits := limitHitRows db r
  { totalDaysWithLimitHits := hits.length,
    uniqueUsersAffected := ((hits.map (fun d => d.userId)).dedup).length,
    averageMessagesOnLimitDays := if 0 < hits.length
      then toFixed2 ((((hits.map (fun d => d.messageCount)).sum : ℚ)) / (hits.length : ℚ))
      else "0",
    dailyLimitHits := hits.take 50 }

/-! ### Generic lemmas about the SQL primitives -/

theorem insertBy_perm {α : Type} (le : α → α → Bool) (x : α) :
    ∀ l : List α, (insertBy le x l).Perm (x :: l)
  | [] => List.Perm.refl _
  | y :: ys => by
    unfold insertBy
    by_cases h : le x y = true
    · rw [if_pos h]
    · rw [if_neg h]
      exact ((insertBy_perm le x ys).cons y).trans (List.Perm.swap x y ys)

theorem sortBy_perm {α : Type} (le : α → α → Bool) : ∀ l : List α, (sortBy le l).Perm l
  | [] => List.Perm.refl _
  | x :: xs => (insertBy_perm le x (sortBy le xs)).trans ((sortBy_perm le xs).cons x)

theorem leftJoin_nil {α : Type} : leftJoin ([] : List α) = [none] := rfl

theorem leftJoin_of_ne_nil {α : Type} {l : List α} (h : l ≠ []) : leftJoin l = l.map some := by
  cases l with
  | nil => exact absurd rfl h
  | cons x xs => rfl

theorem leftJoin_ne_nil {α : Type} (l : List α) : leftJoin l ≠ [] := by
  cases l <;> simp [leftJoin]

theorem mem_leftJoin {α : Type} {x : Option α} {l : List α} :
    x ∈ leftJoin l ↔ (l = [] ∧ x = none) ∨ ∃ a ∈ l, x = some a := by
  cases l with
  | nil => simp [leftJoin]
  | cons y ys =>
    simp only [leftJoin, List.mem_map]
    constructor
    · rintro ⟨a, ha, rfl⟩
      exact Or.inr ⟨a, ha, rfl⟩
    · rintro (⟨h, _⟩ | ⟨a, ha, rfl⟩)
      · exact absurd h (by simp)
      · exact ⟨a, ha, rfl⟩

theorem isSome_of_mem_leftJoin {α : Type} {x : Option α} {l : List α} (h : x ∈ leftJoin l) :
    x.isSome = true ↔ l ≠ [] := by
  rcases mem_leftJoin.1 h with ⟨hl, rfl⟩ | ⟨a, ha, rfl⟩
  · simp [hl]
  · simp
    exact List.ne_nil_of_mem ha

theorem countP_leftJoin_isSome {α : Type} (l : List α) :
    (leftJoin l).countP (fun o => o.isSome) = l.length := by
  cases l with
  | nil => rfl
  | cons x xs =>
    rw [leftJoin_of_ne_nil (by simp), List.countP_map]
    simp [Function.comp_def, List.countP_true]

theorem countP_flatMap {α β : Type} (l : List α) (f : α → List β) (p : β → Bool) :
    (l.flatMap f).countP p = (l.map (fun a => (f a).countP p)).sum := by
  induction l with
  | nil => rfl
  | cons x t ih => simp [List.flatMap_cons, List.countP_append, ih]

theorem sum_map_ite_countP {α : Type} (l : List α) (p : α → Bool) (n : ℕ) :
    (l.map (fun x => if p x = true then n else 0)).sum = l.countP p * n := by
  induction l with
  | nil => simp
  | cons x t ih =>
    by_cases h : p x = true
    · simp [h, ih, List.countP_cons, Nat.add_mul, Nat.add_comm]
    · simp [h, ih, List.countP_cons]

theorem sum_map_eq_single {α : Type} {l : List α} (g : α → ℕ) {u : α}
    (hu : u ∈ l) (hnd : l.Nodup) (hz : ∀ v ∈ l, v ≠ u → g v = 0) :
    (l.map g).sum = g u := by
  induction l with
  | nil => exact absurd hu (by simp)
  | cons x t ih =>
    rcases List.mem_cons.1 hu with rfl | hut
    · have ht : ∀ y ∈ t.map g, y = 0 := by
        intro y hy
        obtain ⟨v, hv, rfl⟩ := List.mem_map.1 hy
        exact hz v (List.mem_cons_of_mem _ hv) (fun hvu => (List.nodup_cons.1 hnd).1 (hvu ▸ hv))
      simp [List.sum_eq_zero ht]
    · have hx : g x = 0 :=
        hz x (List.mem_cons_self x t) (fun hxu => (List.nodup_cons.1 hnd).1 (hxu ▸ hut))
      simp [hx, ih hut (List.nodup_cons.1 hnd).2 (fun v hv => hz v (List.mem_cons_of_mem _ hv))]

theorem countP_key_eq_one {α κ : Type} [DecidableEq κ] {f : α → κ} :
    ∀ {l : List α}, (l.map f).Nodup → ∀ {x : α}, x ∈ l →
      l.countP (fun y => decide (f y = f x)) = 1 := by
  intro l
  induction l with
  | nil => intro _ x hx; exact absurd hx (by simp)
  | cons a t ih =>
    intro hnd x hx
    have hnd2 : f a ∉ List.map f t ∧ (List.map f t).Nodup := by
      rw [List.map_cons, List.nodup_cons] at hnd
      exact hnd
    rcases List.mem_cons.1 hx with rfl | hxt
    · have ht : t.countP (fun y => decide (f y = f x)) = 0 := by
        apply List.countP_eq_zero.2
        intro y hy
        simp only [decide_eq_true_eq]
        exact fun hyx => hnd2.1 (hyx ▸ List.mem_map_of_mem f hy)
      simp [List.countP_cons, ht]
    · have hax : ¬ (f a = f x) := fun h => hnd2.1 (h ▸ List.mem_map_of_mem f hxt)
      simp [List.countP_cons, hax, ih hnd2.2 hxt]

theorem length_filter_key_le_one {α κ : Type} [DecidableEq κ] {f : α → κ} :
    ∀ {l : List α}, (l.map f).Nodup → ∀ (v : κ),
      (l.filter (fun x => decide (f x = v))).length ≤ 1 := by
  intro l
  induction l with
  | nil => intro _ v; simp
  | cons a t ih =>
    intro hnd v
    have hnd2 : f a ∉ List.map f t ∧ (List.map f t).Nodup := by
      rw [List.map_cons, List.nodup_cons] at hnd
      exact hnd
    by_cases h : f a = v
    · have ht : t.filter (fun x => decide (f x = v)) = [] := by
        apply List.filter_eq_nil_iff.2
        intro y hy
        simp only [decide_eq_true_eq]
        exact fun hyv => hnd2.1 ((h.trans hyv.symm) ▸ List.mem_map_of_mem f hy)
      simp [List.filter_cons, h, ht]
    · simpa [List.filter_cons, h] using ih hnd2.2 v

theorem nodup_of_length_le_one {α : Type} {l : List α} (h : l.length ≤ 1) : l.Nodup := by
  cases l with
  | nil => exact List.nodup_nil
  | cons x t =>
    cases t with
    | nil => exact List.nodup_singleton x
    | cons y s => simp at h

theorem length_filter_partition {α : Type} (p : α → Bool) (l : List α) :
    (l.filter p).length + (l.filter (fun x => !p x)).length = l.length := by
  induction l with
  | nil => rfl
  | cons x t ih =>
    cases hx : p x <;> simp [List.filter_cons, hx] <;> omega

theorem le_sum_map_of_forall_le {α : Type} (l : List α) (f : α → ℕ) (c : ℕ)
    (h : ∀ x ∈ l, c ≤ f x) : c * l.length ≤ (l.map f).sum := by
  induction l with
  | nil => simp
  | cons x t ih =>
    simp only [List.map_cons, List.sum_cons, List.length_cons, Nat.mul_succ]
    have h1 := h x (List.mem_cons_self x t)
    have h2 := ih (fun y hy => h y (List.mem_cons_of_mem _ hy))
    omega

theorem mem_groupBy {α κ : Type} [DecidableEq κ] {key : α → κ} {l : List α} {g : κ × List α} :
    g ∈ groupBy key l ↔
      g.1 ∈ (l.map key).dedup ∧ g.2 = l.filter (fun x => decide (key x = g.1)) := by
  unfold groupBy
  constructor
  · intro h
    obtain ⟨k, hk, hg⟩ := List.mem_map.1 h
    subst hg
    exact ⟨hk, rfl⟩
  · intro ⟨h1, h2⟩
    have hg : g = (g.1, l.filter (fun x => decide (key x = g.1))) := by
      cases g
      simp only [Prod.mk.injEq, true_and]
      exact h2
    rw [hg]
    exact List.mem_map_of_mem _ h1

theorem groupBy_pos {α κ : Type} [DecidableEq κ] {key : α → κ} {l : List α} {g : κ × List α}
    (h : g ∈ groupBy key l) : 0 < g.2.length := by
  obtain ⟨h1, h2⟩ := mem_groupBy.1 h
  obtain ⟨x, hx, hkx⟩ := List.mem_map.1 (List.mem_dedup.1 h1)
  have : x ∈ g.2 := by
    rw [h2]
    exact List.mem_filter.2 ⟨hx, by simp [hkx]⟩
  exact List.length_pos.2 (List.ne_nil_of_mem this)

/-! ### Claim C7: rate-limit hit days -/

/-- C7: in rateLimitingImpact, a (user, date) group is a limit-hit day iff its
message count is at least 5 (so exactly 5 qualifies and 4 does not);
totalDaysWithLimitHits is the number of limit-hit rows themselves (not
distinct dates), and dailyLimitHits is the first 50 such rows. -/
theorem rateLimitingImpact_limit_hit_days (db : DB) (p : Period) (now : Int) :
    (rateLimitingImpact db p now).totalDaysWithLimitHits =
      (limitHitRows db (getDateRange p now)).length ∧
    (rateLimitingImpact db p now).dailyLimitHits =
      (limitHitRows db (getDateRange p now)).take 50 ∧
    (∀ d ∈ dailyMessageCounts db (getDateRange p now),
      (d ∈ limitHitRows db (getDateRange p now) ↔ 5 ≤ d.messageCount)) ∧
    (∀ d ∈ dailyMessageCounts db (getDateRange p now), d.messageCount = 4 →
      d ∉ limitHitRows db (getDateRange p now)) := by
  refine ⟨rfl, rfl, ?_, ?_⟩
  · intro d hd
    constructor
    · intro h
      exact of_decide_eq_true (List.mem_filter.1 h).2
    · intro h
      exact List.mem_filter.2 ⟨hd, decide_eq_true h⟩
  · intro d _ h4 hmem
    have h5 := of_decide_eq_true (List.mem_filter.1 hmem).2
    omega

/-- A store where user a sends exactly 5 messages and user b exactly 4,
all on the same day inside the 7d window ending at t = 604800000. -/
def dbC7 : DB :=
  { users := [], accounts := [],
    messageLogs :=
      [⟨1, "a", 1⟩, ⟨2, "a", 2⟩, ⟨3, "a", 3⟩, ⟨4, "a", 4⟩, ⟨5, "a", 5⟩,
       ⟨6, "b", 1⟩, ⟨7, "b", 2⟩, ⟨8, "b", 3⟩, ⟨9, "b", 4⟩],
    requestLogs := [], userCredits := [], paymentIntents := [], paymentRecords := [] }

/-- Witness for C7: the 5-message (user, day) group is a limit-hit row, the
4-message one is not, and exactly one limit-hit row is counted. -/
theorem rateLimitingImpact_limit_hit_days_witness :
    (({ userId := "a", date := 0, messageCount := 5 } : DailyCountRow) ∈
        limitHitRows dbC7 (getDateRange .p7d 604800000)) ∧
    (({ userId := "b", date := 0, messageCount := 4 } : DailyCountRow) ∉
        limitHitRows dbC7 (getDateRange .p7d 604800000)) ∧
    (rateLimitingImpact dbC7 .p7d 604800000).totalDaysWithLimitHits = 1 := by
  have h := rateLimitingImpact_limit_hit_days dbC7 .p7d 604800000
  refine ⟨(h.2.2.1 _ (by decide)).2 (by decide), h.2.2.2 _ (by decide) (by decide), ?_⟩
  rw [h.1]
  decide

/-! ### Claim C9: average messages on limit days is at least 5 -/

/-- The exact rational value formatted into averageMessagesOnLimitDays. -/
def averageMessagesOnLimitDaysQ (db : DB) (r : DateRange) : ℚ :=
  (((limitHitRows db r).map (fun d => d.messageCount)).sum : ℚ) /
    ((limitHitRows db r).length : ℚ)

/-- C9: whenever at least one limit-hit row exists, the mean message count
over limit-hit rows is at least 5 (each summand is at least 5), hence the
value rounded at two decimals is at least 5 as well, and the query output is
exactly that mean formatted with toFixed(2). -/
theorem rateLimitingImpact_avg_at_least_five (db : DB) (p : Period) (now : Int)
    (h : limitHitRows db (getDateRange p now) ≠ []) :
    5 ≤ averageMessagesOnLimitDaysQ db (getDateRange p now) ∧
    500 ≤ jsRound (100 * averageMessagesOnLimitDaysQ db (getDateRange p now)) ∧
    (rateLimitingImpact db p now).averageMessagesOnLimitDays =
      toFixed2 (averageMessagesOnLimitDaysQ db (getDateRange p now)) := by
  have hlen : 0 < (limitHitRows db (getDateRange p now)).length := List.length_pos.2 h
  have hge : ∀ d ∈ limitHitRows db (getDateRange p now), 5 ≤ d.messageCount := by
    intro d hd
    exact of_decide_eq_true (List.mem_filter.1 hd).2
  have hsum : 5 * (limitHitRows db (getDateRange p now)).length ≤
      ((limitHitRows db (getDateRange p now)).map (fun d => d.messageCount)).sum :=
    le_sum_map_of_forall_le _ _ _ hge
  have hc : ((limitHitRows db (getDateRange p now)).map (fun d => (d.messageCount : ℚ))).sum =
      ((((limitHitRows db (getDateRange p now)).map (fun d => d.messageCount)).sum : ℕ) : ℚ) := by
    rw [Nat.cast_list_sum, List.map_map]
    rfl
  have h5 : (5 : ℚ) ≤ averageMessagesOnLimitDaysQ db (getDateRange p now) := by
    unfold averageMessagesOnLimitDaysQ
    rw [le_div_iff₀ (by exact_mod_cast hlen), hc]
    exact_mod_cast hsum
  refine ⟨h5, ?_, ?_⟩
  · unfold jsRound
    apply Int.le_floor.2
    push_cast
    linarith
  · simp only [rateLimitingImpact]
    rw [if_pos hlen]
    rfl

/-- A store whose only limit-hit row has exactly 5 messages. -/
def dbC9 : DB :=
  { users := [], accounts := [],
    messageLogs :=
      [⟨1, "a", 1⟩, ⟨2, "a", 2⟩, ⟨3, "a", 3⟩, ⟨4, "a", 4⟩, ⟨5, "a", 5⟩],
    requestLogs := [], userCredits := [], paymentIntents := [], paymentRecords := [] }

/-- Witness for C9 at a concrete store with one limit-hit row. -/
theorem rateLimitingImpact_avg_at_least_five_witness :
    5 ≤ averageMessagesOnLimitDaysQ dbC9 (getDateRange .p7d 604800000) ∧
    500 ≤ jsRound (100 * averageMessagesOnLimitDaysQ dbC9 (getDateRange .p7d 604800000)) ∧
    (rateLimitingImpact dbC9 .p7d 604800000).averageMessagesOnLimitDays =
      toFixed2 (averageMessagesOnLimitDaysQ dbC9 (getDateRange .p7d 604800000)) :=
  rateLimitingImpact_avg_at_least_five dbC9 .p7d 604800000 (by decide)

/-! ### Claim C10: segmentation count identities -/

/-- C10: freeUsers + paidUsers and heavyUsers + lightUsers both equal the
number of rows of the grouped segmentation query, and every one of the four
sliced segments holds at most 10 entries. -/
theorem userSegmentation_count_identities (db : DB) :
    (userSegmentation db).freeUsers + (userSegmentation db).paidUsers =
      (userSegments db).length ∧
    (userSegmentation db).heavyUsers + (userSegmentation db).lightUsers =
      (userSegments db).length ∧
    (userSegmentation db).segFree.length ≤ 10 ∧
    (userSegmentation db).segPaid.length ≤ 10 ∧
    (userSegmentation db).segHeavy.length ≤ 10 ∧
    (userSegmentation db).segLight.length ≤ 10 := by
  refine ⟨?_, ?_, ?_, ?_, ?_, ?_⟩
  · show (segFreeRows db).length + (segPaidRows db).length = (userSegments db).length
    have hp := length_filter_partition (fun u => u.hasPaid) (userSegments db)
    unfold segFreeRows segPaidRows
    omega
  · show (segHeavyRows db).length + (segLightRows db).length = (userSegments db).length
    have hcong : (userSegments db).filter (fun u => decide (u.totalMessages ≤ 10)) =
        (userSegments db).filter (fun u => !decide (10 < u.totalMessages)) := by
      apply List.filter_congr
      intro x _
      by_cases hx : 10 < x.totalMessages
      · simp [hx, Nat.not_le.2 hx]
      · simp [hx, Nat.le_of_not_lt hx]
    have hp := length_filter_partition (fun u => decide (10 < u.totalMessages)) (userSegments db)
    unfold segHeavyRows segLightRows
    rw [hcong]
    omega
  · exact List.length_take_le _ _
  · exact List.length_take_le _ _
  · exact List.length_take_le _ _
  · exact List.length_take_le _ _

/-! ### Claim C5: revenue totals and ARPU -/

/-- The empty store. -/
def dbEmpty : DB := ⟨[], [], [], [], [], [], []⟩

/-- C5: totalRevenue formats the bucket-cents sum divided by 100, and the
formatted value times 100 recovers the cents sum exactly (so the bucket sum
equals totalRevenue × 100 within rounding tolerance); uniquePayingUsers is
the number of distinct users with a succeeded in-interval PaymentRecord, and
arpu is cents / payers / 100 at two decimals, or the string 0 with no payers. -/
theorem revenueMetrics_totals (db : DB) (p : Period) (now : Int) :
    (revenueMetrics db p now).totalRevenue =
      toFixed2 ((totalRevenueCents db (getDateRange p now) : ℚ) / 100) ∧
    ((monthlyRevenueRows db (getDateRange p now)).map (fun m => m.2.1)).sum =
      totalRevenueCents db (getDateRange p now) ∧
    jsRound (100 * ((totalRevenueCents db (getDateRange p now) : ℚ) / 100)) =
      totalRevenueCents db (getDateRange p now) ∧
    (revenueMetrics db p now).uniquePayingUsers =
      (((succeededInRange db (getDateRange p now)).map (fun q => q.userId)).dedup).length ∧
    (0 < uniquePayingUsersCount db (getDateRange p now) →
      (revenueMetrics db p now).arpu =
        toFixed2 (((totalRevenueCents db (getDateRange p now) : ℚ) /
          (uniquePayingUsersCount db (getDateRange p now) : ℚ)) / 100)) ∧
    (uniquePayingUsersCount db (getDateRange p now) = 0 →
      (revenueMetrics db p now).arpu = "0") := by
  refine ⟨rfl, rfl, ?_, ?_, ?_, ?_⟩
  · have h100 : (100 : ℚ) * ((totalRevenueCents db (getDateRange p now) : ℚ) / 100) =
        (totalRevenueCents db (getDateRange p now) : ℚ) := by
      ring
    rw [jsRound, h100, Int.floor_int_add]
    norm_num
  · simp [revenueMetrics, uniquePayingUsersCount, groupBy]
  · intro h
    simp only [revenueMetrics]
    rw [if_pos h]
  · intro h
    simp only [revenueMetrics]
    rw [if_neg (by omega)]

/-- A store with one succeeded and one failed payment inside the 30d window. -/
def dbC5 : DB :=
  { users := [], accounts := [], messageLogs := [], requestLogs := [], userCredits := [],
    paymentIntents := [],
    paymentRecords :=
      [⟨1, "a", "pp1", "succeeded", 0, 250, none, 1⟩,
       ⟨2, "b", "pp2", "failed", 0, 999, none, 1⟩] }

/-- Witness for C5: concrete arpu with one paying user, and the zero-payer
guard on the empty store. -/
theorem revenueMetrics_totals_witness :
    (revenueMetrics dbC5 .p30d 2592000000).arpu =
      toFixed2 (((totalRevenueCents dbC5 (getDateRange .p30d 2592000000) : ℚ) /
        (uniquePayingUsersCount dbC5 (getDateRange .p30d 2592000000) : ℚ)) / 100) ∧
    (revenueMetrics dbEmpty .p30d 0).arpu = "0" :=
  ⟨(revenueMetrics_totals dbC5 .p30d 2592000000).2.2.2.2.1 (by decide),
   (revenueMetrics_totals dbEmpty .p30d 0).2.2.2.2.2 (by decide)⟩

/-! ### Claim C4: authentication pattern percentages -/

theorem sum_pct_eq_100 {α : Type} (l : List α) (val : α → ℕ) (T : ℚ) (hT : T ≠ 0)
    (hsum : (l.map (fun x => (val x : ℚ))).sum = T) :
    (l.map (fun x => ((val x : ℚ) / T) * 100)).sum = 100 := by
  have h1 : ∀ x ∈ l, ((val x : ℚ) / T) * 100 = (val x : ℚ) * (100 / T) := fun x _ => by ring
  rw [List.map_congr_left h1, List.sum_map_mul_right, hsum]
  field_simp

/-- C4: totalAccounts is the sum of the per-provider counts; with a positive
total the exact per-provider percentages count/total × 100 sum to 100 and
every printed percentage is that exact value at two decimals (so the printed
values sum to 100 up to rounding); with a zero total every printed
percentage is the string 0. -/
theorem authenticationPatterns_percentages (db : DB) :
    (authenticationPatterns db).totalAccounts =
      (((authenticationPatterns db).providerStats).map (fun e => e.count)).sum ∧
    (0 < (authenticationPatterns db).totalAccounts →
      ((((authenticationPatterns db).providerStats).map
          (fun e => ((e.count : ℚ) / ((authenticationPatterns db).totalAccounts : ℚ)) * 100)).sum
        = 100 ∧
       ∀ e ∈ (authenticationPatterns db).providerStats,
         e.percentage =
           toFixed2 (((e.count : ℚ) / ((authenticationPatterns db).totalAccounts : ℚ)) * 100))) ∧
    ((authenticationPatterns db).totalAccounts = 0 →
      ∀ e ∈ (authenticationPatterns db).providerStats, e.percentage = "0") := by
  refine ⟨?_, ?_, ?_⟩
  · show totalAccountsOf db = _
    dsimp only [authenticationPatterns]
    rw [List.map_map]
    rfl
  · intro hT
    have hT2 : 0 < totalAccountsOf db := hT
    constructor
    · dsimp only [authenticationPatterns]
      rw [List.map_map]
      have hsum : ((providerGroups db).map (fun g => (g.2 : ℚ))).sum =
          ((totalAccountsOf db : ℕ) : ℚ) := by
        rw [totalAccountsOf, Nat.cast_list_sum, List.map_map]
        rfl
      exact sum_pct_eq_100 (providerGroups db) (fun g => g.2) _
        (by exact_mod_cast Nat.pos_iff_ne_zero.1 hT2) hsum
    · intro e he
      have he2 : e ∈ (providerGroups db).map (fun g =>
          ({ provider := g.1, count := g.2,
             percentage := if 0 < totalAccountsOf db
               then toFixed2 (((g.2 : ℚ) / (totalAccountsOf db : ℚ)) * 100)
               else "0" } : ProviderStat)) := he
      obtain ⟨g, _, rfl⟩ := List.mem_map.1 he2
      dsimp only
      rw [if_pos hT2]
      rfl
  · intro h0 e he
    have h02 : totalAccountsOf db = 0 := h0
    have he2 : e ∈ (providerGroups db).map (fun g =>
        ({ provider := g.1, count := g.2,
           percentage := if 0 < totalAccountsOf db
             then toFixed2 (((g.2 : ℚ) / (totalAccountsOf db : ℚ)) * 100)
             else "0" } : ProviderStat)) := he
    obtain ⟨g, _, rfl⟩ := List.mem_map.1 he2
    dsimp only
    rw [if_neg (by omega)]

/-- A store with three google accounts and one github account. -/
def dbC4 : DB :=
  { users := [],
    accounts := [⟨"u1", "google"⟩, ⟨"u2", "google"⟩, ⟨"u3", "google"⟩, ⟨"u4", "github"⟩],
    messageLogs := [], requestLogs := [], userCredits := [],
    paymentIntents := [], paymentRecords := [] }

unseal Rat.add Rat.mul Rat.inv Rat.sub in
/-- Witness for C4: with 4 accounts the exact percentages sum to 100 and the
3-account provider prints the exact 75 percent value. -/
theorem authenticationPatterns_percentages_witness :
    ((((authenticationPatterns dbC4).providerStats).map
        (fun e => ((e.count : ℚ) / ((authenticationPatterns dbC4).totalAccounts : ℚ)) * 100)).sum
      = 100) ∧
    ({ provider := "google", count := 3, percentage := "75.00" } : ProviderStat).percentage =
      toFixed2 (((({ provider := "google", count := 3, percentage := "75.00" }
          : ProviderStat).count : ℚ) /
        ((authenticationPatterns dbC4).totalAccounts : ℚ)) * 100) := by
  have h := (authenticationPatterns_percentages dbC4).2.1 (by decide)
  exact ⟨h.1, h.2 _ (by decide)⟩

/-! ### Claim C8: synthesized growth series -/

/-- C8: with the randomness source injected, the synthesized series has
min(elapsedDays, 30) buckets, every bucket count is floor(base · f) for some
jitter factor f with 0.8 ≤ f < 1.2 where base = floor(totalUsers /
max(elapsedDays, 1)), and newUsersInPeriod is the sum of the series counts. -/
theorem userGrowth_series_shape (db : DB) (p : Period) (now : Int) (rand : Nat → ℚ)
    (hrand : ∀ i, 0 ≤ rand i ∧ rand i < 1) :
    (userGrowth db p now rand).dailySignups.length = (min (elapsedDays p now) 30).toNat ∧
    (∀ b ∈ (userGrowth db p now rand).dailySignups,
      ∃ f : ℚ, 4 / 5 ≤ f ∧ f < 6 / 5 ∧
        b.count = ⌊(avgDailySignups db p now : ℚ) * f⌋) ∧
    (userGrowth db p now rand).newUsersInPeriod =
      ((userGrowth db p now rand).dailySignups.map (fun b => b.count)).sum := by
  refine ⟨?_, ?_, rfl⟩
  · dsimp only [userGrowth]
    rw [List.length_map, List.length_range]
  · intro b hb
    have hb2 : b ∈ (List.range (min (elapsedDays p now) 30).toNat).map
        (fun (i : Nat) =>
          ({ date := (getDateRange p now).startDate + (i : Int) * 86400000,
             count := ⌊(avgDailySignups db p now : ℚ) * (4 / 5 + rand i * (2 / 5))⌋ }
            : SignupBucket)) := hb
    obtain ⟨i, _, rfl⟩ := List.mem_map.1 hb2
    refine ⟨4 / 5 + rand i * (2 / 5), ?_, ?_, rfl⟩
    · have h0 := (hrand i).1
      nlinarith
    · have h1 := (hrand i).2
      nlinarith

/-- A store with three registered users. -/
def dbC8 : DB :=
  { users := [⟨"u1", none, "e1"⟩, ⟨"u2", none, "e2"⟩, ⟨"u3", none, "e3"⟩],
    accounts := [], messageLogs := [], requestLogs := [], userCredits := [],
    paymentIntents := [], paymentRecords := [] }

/-- Witness for C8 with the constant jitter source 1/2. -/
theorem userGrowth_series_shape_witness :
    (userGrowth dbC8 .p7d 604800000 (fun _ => 1 / 2)).dailySignups.length =
      (min (elapsedDays .p7d 604800000) 30).toNat ∧
    (userGrowth dbC8 .p7d 604800000 (fun _ => 1 / 2)).newUsersInPeriod =
      ((userGrowth dbC8 .p7d 604800000 (fun _ => 1 / 2)).dailySignups.map
        (fun b => b.count)).sum := by
  have h := userGrowth_series_shape dbC8 .p7d 604800000 (fun _ => 1 / 2)
    (fun i => ⟨by norm_num, by norm_num⟩)
  exact ⟨h.1, h.2.2⟩

/-! ### Claim C6: per-action API success rates -/

/-- A store whose request log holds 100 successful and 5 failed rows for the
action chat, all at t = 0. -/
def dbC6 : DB :=
  { users := [], accounts := [], messageLogs := [],
    requestLogs :=
      (List.range 100).map (fun i => ⟨(i : Int), "u", "chat", 200, true, none, 0⟩) ++
      (List.range 5).map (fun i => ⟨(100 + i : Int), "u", "chat", 500, false, some "boom", 0⟩),
    userCredits := [], paymentIntents := [], paymentRecords := [] }

set_option maxRecDepth 4000 in
unseal Rat.add Rat.mul Rat.inv Rat.sub in
/-- C6: every apiStats entry prints successRate =
successfulRequests/totalRequests × 100 at two decimals, the top-level
totalRequests is the sum over the per-action entries, and the concrete
100-success/5-failure chat scenario yields the entry
(chat, 105, 100, 95.24). -/
theorem systemHealth_success_rates :
    (∀ (db : DB) (p : Period) (now : Int),
      (∀ st ∈ (systemHealth db p now).apiStats,
        st.successRate =
          toFixed2 (((st.successfulRequests : ℚ) / (st.totalRequests : ℚ)) * 100)) ∧
      (systemHealth db p now).totalRequests =
        (((systemHealth db p now).apiStats).map (fun st => st.totalRequests)).sum) ∧
    (systemHealth dbC6 .p7d 0).apiStats =
      [{ action := "chat", totalRequests := 105, successfulRequests := 100,
         avgResponseTime := 20 / 21, successRate := "95.24" }] := by
  constructor
  · intro db p now
    constructor
    · intro st hst
      have hst2 : st ∈ apiStatsRows db (getDateRange p now) := hst
      simp only [apiStatsRows] at hst2
      obtain ⟨g, hg, rfl⟩ := List.mem_map.1 hst2
      have ht := groupBy_pos hg
      show (if 0 < g.2.length then
          toFixed2 (((g.2.countP (fun q => q.success) : ℚ) / (g.2.length : ℚ)) * 100)
        else "0") = _
      rw [if_pos ht]
    · rfl
  · decide

/-- The expected chat entry of the C6 scenario. -/
def chatApiStat : ApiStat :=
  { action := "chat", totalRequests := 105, successfulRequests := 100,
    avgResponseTime := 20 / 21, successRate := "95.24" }

set_option maxRecDepth 4000 in
unseal Rat.add Rat.mul Rat.inv Rat.sub in
/-- Witness for C6: the successRate equation instantiated at the concrete
chat entry of dbC6. -/
theorem systemHealth_success_rates_witness :
    chatApiStat.successRate =
      toFixed2 (((chatApiStat.successfulRequests : ℚ) /
        (chatApiStat.totalRequests : ℚ)) * 100) :=
  (systemHealth_success_rates.1 dbC6 .p7d 0).1 chatApiStat (by decide)

/-! ### Claim C3: every ratio guards division by zero with the string 0 -/

/-- C3: for every derived ratio or average of the metric bundles (the four
funnel conversion rates, tier successRate, provider percentage,
avgMessagesPerUser, averageProcessingTime, averageMessagesOnLimitDays, api
successRate, growthRate and arpu), a zero denominator produces the string 0,
never a division result. -/
theorem ratios_guard_division_by_zero :
    ∀ (db : DB) (p : Period) (now : Int) (rand : Nat → ℚ),
      (db.users.length = 0 →
        (conversionFunnel db p now).conversionRates.registrationToFirstMessage = "0" ∧
        (conversionFunnel db p now).conversionRates.overallConversion = "0") ∧
      (firstMessageUsers db (getDateRange p now) = 0 →
        (conversionFunnel db p now).conversionRates.firstMessageToPaymentIntent = "0") ∧
      (paymentIntentUsers db (getDateRange p now) = 0 →
        (conversionFunnel db p now).conversionRates.paymentIntentToCompletion = "0") ∧
      (∀ ts ∈ (paymentAnalysis db p now).tierStats,
        ts.successRate = if ts.totalAttempts = 0 then "0"
          else toFixed2 (((ts.successful : ℚ) / (ts.totalAttempts : ℚ)) * 100)) ∧
      (∀ e ∈ (authenticationPatterns db).providerStats,
        e.percentage = if (authenticationPatterns db).totalAccounts = 0 then "0"
          else toFixed2 (((e.count : ℚ) / ((authenticationPatterns db).totalAccounts : ℚ)) * 100)) ∧
      ((userEngagement db p now).totalActiveUsers = 0 →
        (userEngagement db p now).avgMessagesPerUser = "0") ∧
      (processingTimeRows db (getDateRange p now) = [] →
        (paymentAnalysis db p now).averageProcessingTime = "0") ∧
      (limitHitRows db (getDateRange p now) = [] →
        (rateLimitingImpact db p now).averageMessagesOnLimitDays = "0") ∧
      (∀ st ∈ (systemHealth db p now).apiStats,
        st.successRate = if st.totalRequests = 0 then "0"
          else toFixed2 (((st.successfulRequests : ℚ) / (st.totalRequests : ℚ)) * 100)) ∧
      (db.users.length = 0 → (userGrowth db p now rand).growthRate = "0") ∧
      (uniquePayingUsersCount db (getDateRange p now) = 0 →
        (revenueMetrics db p now).arpu = "0") := by
  intro db p now rand
  refine ⟨?_, ?_, ?_, ?_, ?_, ?_, ?_, ?_, ?_, ?_, ?_⟩
  · intro h
    constructor <;> simp [conversionFunnel, h]
  · intro h
    simp [conversionFunnel, h]
  · intro h
    simp [conversionFunnel, h]
  · intro ts hts
    have hts2 : ts ∈ tierStatsRows db (getDateRange p now) := hts
    simp only [tierStatsRows] at hts2
    obtain ⟨g, _, rfl⟩ := List.mem_map.1 hts2
    dsimp only
    rcases Nat.eq_zero_or_pos g.2.length with h0 | h0
    · simp [h0]
    · rw [if_pos h0, if_neg (Nat.pos_iff_ne_zero.1 h0)]
  · intro e he
    have he2 : e ∈ (providerGroups db).map (fun g =>
        ({ provider := g.1, count := g.2,
           percentage := if 0 < totalAccountsOf db
             then toFixed2 (((g.2 : ℚ) / (totalAccountsOf db : ℚ)) * 100)
             else "0" } : ProviderStat)) := he
    obtain ⟨g, _, rfl⟩ := List.mem_map.1 he2
    dsimp only
    show _ = if totalAccountsOf db = 0 then "0" else _
    rcases Nat.eq_zero_or_pos (totalAccountsOf db) with h0 | h0
    · simp [h0]
    · rw [if_pos h0, if_neg (Nat.pos_iff_ne_zero.1 h0)]
      rfl
  · intro h
    have h2 : (userEngagementRows db (getDateRange p now)).length = 0 := h
    dsimp only [userEngagement]
    rw [if_neg (by omega)]
  · intro h
    dsimp only [paymentAnalysis]
    rw [if_neg (by simp [h])]
  · intro h
    dsimp only [rateLimitingImpact]
    rw [if_neg (by simp [h])]
  · intro st hst
    have hst2 : st ∈ apiStatsRows db (getDateRange p now) := hst
    simp only [apiStatsRows] at hst2
    obtain ⟨g, _, rfl⟩ := List.mem_map.1 hst2
    dsimp only
    rcases Nat.eq_zero_or_pos g.2.length with h0 | h0
    · simp [h0]
    · rw [if_pos h0, if_neg (Nat.pos_iff_ne_zero.1 h0)]
  · intro h
    simp [userGrowth, h]
  · intro h
    dsimp only [revenueMetrics]
    rw [if_neg (by omega)]

/-- A store with one completed intent joined to one succeeded record, one
google account and one successful chat request, all at t = 0. -/
def dbC3 : DB :=
  { users := [], accounts := [⟨"u", "google"⟩], messageLogs := [],
    requestLogs := [⟨1, "u", "chat", 200, true, none, 0⟩],
    userCredits := [],
    paymentIntents := [⟨1, "u", "basic", 10, 500, "completed", some "pp1", 0, some 60000⟩],
    paymentRecords := [⟨1, "u", "pp1", "succeeded", 10, 500, some 1, 0⟩] }

/-- The tier entry produced by dbC3. -/
def tierStatC3 : TierStat :=
  { tier := "basic", totalAttempts := 1, successful := 1, successRate := "100.00" }

/-- The provider entry produced by dbC3. -/
def providerStatC3 : ProviderStat :=
  { provider := "google", count := 1, percentage := "100.00" }

/-- The api entry produced by dbC3. -/
def apiStatC3 : ApiStat :=
  { action := "chat", totalRequests := 1, successfulRequests := 1,
    avgResponseTime := 1, successRate := "100.00" }

unseal Rat.add Rat.mul Rat.inv Rat.sub in
/-- Witness for C3: the empty store exercises every zero-denominator guard,
and dbC3 exercises the per-entry ratio equations. -/
theorem ratios_guard_division_by_zero_witness :
    ((conversionFunnel dbEmpty .p30d 0).conversionRates.registrationToFirstMessage = "0" ∧
     (conversionFunnel dbEmpty .p30d 0).conversionRates.overallConversion = "0") ∧
    (conversionFunnel dbEmpty .p30d 0).conversionRates.firstMessageToPaymentIntent = "0" ∧
    (conversionFunnel dbEmpty .p30d 0).conversionRates.paymentIntentToCompletion = "0" ∧
    (tierStatC3.successRate = if tierStatC3.totalAttempts = 0 then "0"
      else toFixed2 (((tierStatC3.successful : ℚ) / (tierStatC3.totalAttempts : ℚ)) * 100)) ∧
    (providerStatC3.percentage = if (authenticationPatterns dbC3).totalAccounts = 0 then "0"
      else toFixed2 (((providerStatC3.count : ℚ) /
        ((authenticationPatterns dbC3).totalAccounts : ℚ)) * 100)) ∧
    (userEngagement dbEmpty .p30d 0).avgMessagesPerUser = "0" ∧
    (paymentAnalysis dbEmpty .p30d 0).averageProcessingTime = "0" ∧
    (rateLimitingImpact dbEmpty .p30d 0).averageMessagesOnLimitDays = "0" ∧
    (apiStatC3.successRate = if apiStatC3.totalRequests = 0 then "0"
      else toFixed2 (((apiStatC3.successfulRequests : ℚ) / (apiStatC3.totalRequests : ℚ)) * 100)) ∧
    (userGrowth dbEmpty .p30d 0 (fun _ => 0)).growthRate = "0" ∧
    (revenueMetrics dbEmpty .p30d 0).arpu = "0" := by
  have h0 := ratios_guard_division_by_zero dbEmpty .p30d 0 (fun _ => 0)
  have h1 := ratios_guard_division_by_zero dbC3 .p30d 0 (fun _ => 0)
  exact ⟨h0.1 rfl, h0.2.1 rfl, h0.2.2.1 rfl,
    h1.2.2.2.1 tierStatC3 (by decide),
    h1.2.2.2.2.1 providerStatC3 (by decide),
    h0.2.2.2.2.2.1 rfl,
    h0.2.2.2.2.2.2.1 rfl,
    h0.2.2.2.2.2.2.2.1 rfl,
    h1.2.2.2.2.2.2.2.2.1 apiStatC3 (by decide),
    h0.2.2.2.2.2.2.2.2.2.1 rfl,
    h0.2.2.2.2.2.2.2.2.2.2 rfl⟩

/-! ### Lemmas about the segmentation join -/

theorem mem_rowsFor {db : DB} {u : User} {x : SegJoinRow} :
    x ∈ rowsFor db u ↔ ∃ c ∈ leftJoin (creditsFor db u), ∃ m ∈ leftJoin (messagesFor db u),
      ∃ p ∈ leftJoin (paymentsFor db u), x = (u, c, m, p) := by
  simp only [rowsFor, List.mem_flatMap, List.mem_map]
  constructor
  · rintro ⟨c, hc, m, hm, p, hp, hx⟩
    exact ⟨c, hc, m, hm, p, hp, hx.symm⟩
  · rintro ⟨c, hc, m, hm, p, hp, hx⟩
    exact ⟨c, hc, m, hm, p, hp, hx.symm⟩

theorem fst_of_mem_rowsFor {db : DB} {u : User} {x : SegJoinRow}
    (h : x ∈ rowsFor db u) : x.1 = u := by
  obtain ⟨c, _, m, _, p, _, rfl⟩ := mem_rowsFor.1 h
  rfl

theorem exists_mem_rowsFor (db : DB) (u : User) : ∃ x ∈ rowsFor db u, x.1 = u := by
  obtain ⟨c, hc⟩ := List.exists_mem_of_ne_nil _ (leftJoin_ne_nil (creditsFor db u))
  obtain ⟨m, hm⟩ := List.exists_mem_of_ne_nil _ (leftJoin_ne_nil (messagesFor db u))
  obtain ⟨p, hp⟩ := List.exists_mem_of_ne_nil _ (leftJoin_ne_nil (paymentsFor db u))
  exact ⟨(u, c, m, p), mem_rowsFor.2 ⟨c, hc, m, hm, p, hp, rfl⟩, rfl⟩

theorem countP_const_and {α : Type} (l : List α) (b : Bool) (p : α → Bool) :
    l.countP (fun x => b && p x) = if b = true then l.countP p else 0 := by
  cases b
  · simp
  · simp

theorem countP_rowsFor (db : DB) (u : User) (pc : Option UserCredit → Bool)
    (pm : Option MessageLog → Bool) (pq : Option PaymentRecord → Bool) :
    (rowsFor db u).countP (fun x => pc x.2.1 && pm x.2.2.1 && pq x.2.2.2) =
      (leftJoin (creditsFor db u)).countP pc *
        ((leftJoin (messagesFor db u)).countP pm * (leftJoin (paymentsFor db u)).countP pq) := by
  unfold rowsFor
  rw [countP_flatMap]
  have inner2 : ∀ (c : Option UserCredit) (m : Option MessageLog),
      ((leftJoin (paymentsFor db u)).map
          (fun p => ((u, c, m, p) : SegJoinRow))).countP
        (fun x => pc x.2.1 && pm x.2.2.1 && pq x.2.2.2) =
      if (pc c && pm m) = true then (leftJoin (paymentsFor db u)).countP pq else 0 := by
    intro c m
    rw [List.countP_map]
    show (leftJoin (paymentsFor db u)).countP (fun p => (pc c && pm m) && pq p) = _
    exact countP_const_and _ _ _
  have inner : ∀ c : Option UserCredit,
      ((leftJoin (messagesFor db u)).flatMap
          (fun m => (leftJoin (paymentsFor db u)).map
            (fun p => ((u, c, m, p) : SegJoinRow)))).countP
        (fun x => pc x.2.1 && pm x.2.2.1 && pq x.2.2.2) =
      if pc c = true
        then (leftJoin (messagesFor db u)).countP pm * (leftJoin (paymentsFor db u)).countP pq
        else 0 := by
    intro c
    rw [countP_flatMap, List.map_congr_left (fun m _ => inner2 c m)]
    by_cases hc : pc c = true
    · simp only [hc, Bool.true_and, if_pos]
      exact sum_map_ite_countP _ _ _
    · have hc2 : pc c = false := by
        cases hpc : pc c
        · rfl
        · exact absurd hpc hc
      rw [if_neg hc]
      apply List.sum_eq_zero
      intro y hy
      obtain ⟨m, _, rfl⟩ := List.mem_map.1 hy
      rw [hc2]
      simp
  rw [List.map_congr_left (fun c _ => inner c)]
  exact sum_map_ite_countP _ _ _

theorem nodup_map_leftJoin_short {α β : Type} (l : List α) (h : l.length ≤ 1)
    (f : Option α → β) : ((leftJoin l).map f).Nodup := by
  cases l with
  | nil => simp [leftJoin]
  | cons x xs =>
    cases xs with
    | nil => simp [leftJoin]
    | cons y ys => simp at h

theorem nodup_map_leftJoin_opt {α β : Type} (l : List α) (f : α → β)
    (h : (l.map f).Nodup) : ((leftJoin l).map (fun o => o.map f)).Nodup := by
  cases l with
  | nil => simp [leftJoin]
  | cons x xs =>
    rw [leftJoin_of_ne_nil (by simp), List.map_map]
    have : ((fun o => o.map f) ∘ some) = (fun a => some (f a)) := rfl
    rw [this]
    have h2 : ((x :: xs).map (fun a => some (f a))) = ((x :: xs).map f).map some := by
      rw [List.map_map]
      rfl
    rw [h2]
    exact h.map (Option.some_injective β)

theorem countP_segJoinRows_eq (db : DB)
    (hU : (db.users.map (fun v => v.id)).Nodup)
    (hC : (db.userCredits.map (fun c => c.userId)).Nodup)
    (hP : (db.paymentRecords.map (fun q => q.id)).Nodup)
    (u : User) (hu : u ∈ db.users)
    (c₀ : Option UserCredit) (hc₀ : c₀ ∈ leftJoin (creditsFor db u))
    (m₀ : Option MessageLog)
    (p₀ : Option PaymentRecord) (hp₀ : p₀ ∈ leftJoin (paymentsFor db u)) :
    (segJoinRows db).countP
        (fun x => x.2.2.1.isSome && decide (segKey x = segKey (u, c₀, m₀, p₀))) =
      (messagesFor db u).length := by
  unfold segJoinRows
  rw [countP_flatMap]
  have hzero : ∀ v ∈ db.users, v ≠ u →
      (rowsFor db v).countP
        (fun x => x.2.2.1.isSome && decide (segKey x = segKey (u, c₀, m₀, p₀))) = 0 := by
    intro v hv hvu
    apply List.countP_eq_zero.2
    intro x hx hpred
    rw [Bool.and_eq_true] at hpred
    have hkey := of_decide_eq_true hpred.2
    have h1 := congrArg (fun k => k.1) hkey
    have hx1 := fst_of_mem_rowsFor hx
    exact hvu (List.inj_on_of_nodup_map hU hv hu (by simpa [segKey, hx1] using h1))
  have husersN : db.users.Nodup := List.Nodup.of_map _ hU
  rw [sum_map_eq_single
    (fun v => (rowsFor db v).countP
      (fun x => x.2.2.1.isSome && decide (segKey x = segKey (u, c₀, m₀, p₀))))
    hu husersN hzero]
  have hcongr : ∀ x ∈ rowsFor db u,
      (x.2.2.1.isSome && decide (segKey x = segKey (u, c₀, m₀, p₀))) = true ↔
      ((fun c => decide (c.map (fun cr => cr.balance) = c₀.map (fun cr => cr.balance))) x.2.1 &&
        (fun m => m.isSome) x.2.2.1 &&
        (fun p => decide (p.map (fun pr => pr.id) = p₀.map (fun pr => pr.id))) x.2.2.2) = true := by
    intro x hx
    obtain ⟨c, _, m, _, p, _, rfl⟩ := mem_rowsFor.1 hx
    simp only [segKey, Bool.and_eq_true, decide_eq_true_eq, Prod.mk.injEq, true_and]
    tauto
  rw [List.countP_congr hcongr]
  rw [countP_rowsFor db u
    (fun c => decide (Option.map (fun cr => cr.balance) c = Option.map (fun cr => cr.balance) c₀))
    (fun m => m.isSome)
    (fun p => decide (Option.map (fun pr => pr.id) p = Option.map (fun pr => pr.id) p₀))]
  have hA : (leftJoin (creditsFor db u)).countP
      (fun c => decide (c.map (fun cr => cr.balance) = c₀.map (fun cr => cr.balance))) = 1 :=
    countP_key_eq_one
      (nodup_map_leftJoin_short _ (length_filter_key_le_one hC u.id) _) hc₀
  have hMc := countP_leftJoin_isSome (messagesFor db u)
  have hq : ((paymentsFor db u).map (fun pr => pr.id)).Nodup :=
    hP.sublist ((List.filter_sublist _).map _)
  have hPp : (leftJoin (paymentsFor db u)).countP
      (fun p => decide (p.map (fun pr => pr.id) = p₀.map (fun pr => pr.id))) = 1 :=
    countP_key_eq_one (nodup_map_leftJoin_opt _ _ hq) hp₀
  rw [hA, hMc, hPp, one_mul, mul_one]

theorem mem_userSegments {db : DB} {rr : SegRow} :
    rr ∈ userSegments db ↔ ∃ k ∈ ((segJoinRows db).map segKey).dedup,
      rr = { userId := k.1, userName := k.2.1, email := k.2.2.1, credits := k.2.2.2.1,
             totalMessages := (((segJoinRows db).filter
               (fun x => decide (segKey x = k))).filter (fun x => x.2.2.1.isSome)).length,
             hasPaid := k.2.2.2.2.isSome } := by
  unfold userSegments groupBy
  rw [List.map_map]
  constructor
  · intro h
    obtain ⟨k, hk, hkr⟩ := List.mem_map.1 h
    exact ⟨k, hk, hkr.symm⟩
  · rintro ⟨k, hk, rfl⟩
    exact List.mem_map_of_mem _ hk

theorem mem_segFilter_iff {db : DB} {rr : SegRow} (hrr : rr ∈ userSegments db)
    (p : SegRow → Bool) :
    rr ∈ (userSegments db).filter p ↔ p rr = true := by
  rw [List.mem_filter]
  exact ⟨fun h => h.2, fun h => ⟨hrr, h⟩⟩

/-- C1: on a well-formed store, every user of the users table appears among
the segmentation rows; all of a user's rows are in the paid segment exactly
when at least one PaymentRecord row exists for that user regardless of its
status, and otherwise all are in the free segment; every row's totalMessages
is the user's total message count (no period filter), and the row is in the
heavy segment exactly when that count is strictly greater than 10, otherwise
(count at most 10, including exactly 10) in the light segment. -/
theorem userSegmentation_partition (db : DB) (hWF : db.WellFormed) (u : User)
    (hu : u ∈ db.users) :
    (∃ rr ∈ userSegments db, rr.userId = u.id) ∧
    (∀ rr ∈ userSegments db, rr.userId = u.id →
      ((rr ∈ segPaidRows db ↔ ∃ pr ∈ db.paymentRecords, pr.userId = u.id) ∧
       (rr ∈ segFreeRows db ↔ ¬ ∃ pr ∈ db.paymentRecords, pr.userId = u.id) ∧
       rr.totalMessages = (messagesFor db u).length ∧
       (rr ∈ segHeavyRows db ↔ 10 < (messagesFor db u).length) ∧
       (rr ∈ segLightRows db ↔ (messagesFor db u).length ≤ 10))) := by
  obtain ⟨hU, hC, hP⟩ := hWF
  constructor
  · obtain ⟨x, hx, hx1⟩ := exists_mem_rowsFor db u
    have hxs : x ∈ segJoinRows db := List.mem_flatMap.2 ⟨u, hu, hx⟩
    have hk : segKey x ∈ ((segJoinRows db).map segKey).dedup :=
      List.mem_dedup.2 (List.mem_map_of_mem _ hxs)
    refine ⟨_, mem_userSegments.2 ⟨segKey x, hk, rfl⟩, ?_⟩
    show x.1.id = u.id
    rw [hx1]
  · intro rr hrr hrid
    obtain ⟨k, hk, rfl⟩ := mem_userSegments.1 hrr
    obtain ⟨x₀, hx₀, hkx⟩ := List.mem_map.1 (List.mem_dedup.1 hk)
    obtain ⟨u₀, hu₀, hxr⟩ := List.mem_flatMap.1 hx₀
    obtain ⟨c₀, hc₀, m₀, hm₀, p₀, hp₀, rfl⟩ := mem_rowsFor.1 hxr
    subst hkx
    have hid : u₀.id = u.id := hrid
    have huu : u₀ = u := List.inj_on_of_nodup_map hU hu₀ hu hid
    subst huu
    have hpaid : (p₀.map (fun pr => pr.id)).isSome = true ↔
        ∃ pr ∈ db.paymentRecords, pr.userId = u₀.id := by
      have hiso : (Option.map (fun pr => pr.id) p₀).isSome = p₀.isSome := by
        cases p₀ <;> rfl
      rw [hiso, isSome_of_mem_leftJoin hp₀]
      constructor
      · intro hne
        obtain ⟨pr, hpr⟩ := List.exists_mem_of_ne_nil _ hne
        have h2 := List.mem_filter.1 hpr
        exact ⟨pr, h2.1, of_decide_eq_true h2.2⟩
      · rintro ⟨pr, hpr, hpru⟩ hnil
        have h2 : pr ∈ paymentsFor db u₀ := List.mem_filter.2 ⟨hpr, decide_eq_true hpru⟩
        rw [hnil] at h2
        simp at h2
    have htm : (((segJoinRows db).filter
        (fun x => decide (segKey x = segKey (u₀, c₀, m₀, p₀)))).filter
          (fun x => x.2.2.1.isSome)).length = (messagesFor db u₀).length := by
      rw [← List.countP_eq_length_filter, List.countP_filter]
      exact countP_segJoinRows_eq db hU hC hP u₀ hu₀ c₀ hc₀ m₀ p₀ hp₀
    have hfree : ((!(p₀.map (fun pr => pr.id)).isSome) = true) ↔
        ¬ ∃ pr ∈ db.paymentRecords, pr.userId = u₀.id := by
      cases hcase : (p₀.map (fun pr => pr.id)).isSome
      · simp only [Bool.not_false]
        constructor
        · intro _ hex
          have h2 := hpaid.2 hex
          rw [hcase] at h2
          exact absurd h2 (by simp)
        · intro _
          trivial
      · simp only [Bool.not_true]
        constructor
        · intro hb
          exact absurd hb (by simp)
        · intro hnex
          exact absurd (hpaid.1 hcase) hnex
    have hheavy : (decide (10 < (((segJoinRows db).filter
        (fun x => decide (segKey x = segKey (u₀, c₀, m₀, p₀)))).filter
          (fun x => x.2.2.1.isSome)).length) = true) ↔
        10 < (messagesFor db u₀).length := by
      rw [htm]
      simp
    have hlight : (decide ((((segJoinRows db).filter
        (fun x => decide (segKey x = segKey (u₀, c₀, m₀, p₀)))).filter
          (fun x => x.2.2.1.isSome)).length ≤ 10) = true) ↔
        (messagesFor db u₀).length ≤ 10 := by
      rw [htm]
      simp
    exact ⟨(mem_segFilter_iff hrr (fun v => v.hasPaid)).trans hpaid,
      (mem_segFilter_iff hrr (fun v => !v.hasPaid)).trans hfree,
      htm,
      (mem_segFilter_iff hrr (fun v => decide (10 < v.totalMessages))).trans hheavy,
      (mem_segFilter_iff hrr (fun v => decide (v.totalMessages ≤ 10))).trans hlight⟩

/-- User a of the C1 witness store: 11 messages, two payment records. -/
def userA : User := ⟨"a", none, "a@x"⟩

/-- User b of the C1 witness store: exactly 10 messages, no payment record. -/
def userB : User := ⟨"b", none, "b@x"⟩

/-- A well-formed store exercising both segmentation boundaries. -/
def dbC1 : DB :=
  { users := [userA, userB],
    accounts := [],
    messageLogs :=
      [⟨1, "a", 0⟩, ⟨2, "a", 0⟩, ⟨3, "a", 0⟩, ⟨4, "a", 0⟩, ⟨5, "a", 0⟩, ⟨6, "a", 0⟩,
       ⟨7, "a", 0⟩, ⟨8, "a", 0⟩, ⟨9, "a", 0⟩, ⟨10, "a", 0⟩, ⟨11, "a", 0⟩,
       ⟨12, "b", 0⟩, ⟨13, "b", 0⟩, ⟨14, "b", 0⟩, ⟨15, "b", 0⟩, ⟨16, "b", 0⟩,
       ⟨17, "b", 0⟩, ⟨18, "b", 0⟩, ⟨19, "b", 0⟩, ⟨20, "b", 0⟩, ⟨21, "b", 0⟩],
    requestLogs := [],
    userCredits := [⟨"a", 5⟩],
    paymentIntents := [],
    paymentRecords :=
      [⟨1, "a", "pp1", "succeeded", 10, 100, none, 0⟩,
       ⟨2, "a", "pp2", "failed", 0, 0, none, 0⟩] }

/-- The segmentation row of user a with the succeeded payment record. -/
def segRowA : SegRow :=
  { userId := "a", userName := none, email := "a@x", credits := some 5,
    totalMessages := 11, hasPaid := true }

/-- The segmentation row of user b. -/
def segRowB : SegRow :=
  { userId := "b", userName := none, email := "b@x", credits := none,
    totalMessages := 10, hasPaid := false }

/-- Witness for C1: user a (11 messages, a payment record of any status) lands
in paid and heavy; user b (exactly 10 messages, no record) in free and light. -/
theorem userSegmentation_partition_witness :
    segRowA ∈ segPaidRows dbC1 ∧ segRowA ∈ segHeavyRows dbC1 ∧
    segRowB ∈ segFreeRows dbC1 ∧ segRowB ∈ segLightRows dbC1 := by
  have hA := (userSegmentation_partition dbC1 (by decide) userA (by decide)).2
    segRowA (by decide) (by decide)
  have hB := (userSegmentation_partition dbC1 (by decide) userB (by decide)).2
    segRowB (by decide) (by decide)
  exact ⟨hA.1.mpr ⟨⟨1, "a", "pp1", "succeeded", 10, 100, none, 0⟩, by decide, by decide⟩,
    hA.2.2.2.1.mpr (by decide),
    hB.2.1.mpr (by decide),
    hB.2.2.2.2.mpr (by decide)⟩
